import Mathlib

/-!
Formal model of the OAuth 2.0 Device Authorization Grant client with PKCE
implemented in
`src/cmd/insta/resources/data/lakekeeper/access-control-advanced/notebooks/device_code_auth.py`
(function `authenticate_device_flow_with_pkce`).

The Python function is embedded shallowly:
  * `sha256`, `b64urlEncodeNoPad`, `utf8Bytes` model `hashlib.sha256`,
    `base64.urlsafe_b64encode(...).replace("=", "")` and `str.encode("utf-8")`;
  * `secrets.choice` is modelled by an oracle `rand : Nat → Nat` (reduced
    modulo the alphabet length, as `secrets.choice` always returns an
    in-range element);
  * `requests.post` is modelled by oracles giving the device-endpoint
    response and the stream of token-endpoint responses; each outgoing
    request and each `time.sleep`/URL display becomes an `Event` in a trace;
  * the unbounded `while True` polling loop is modelled with explicit fuel;
    running out of fuel yields the distinguished outcome `Outcome.outOfFuel`
    meaning "still polling".
-/

/-! ### Python `str.replace` (literal, non-overlapping, left to right) -/

/-- Boolean test that `p` is an initial segment of the second list. -/
def leadsWith : List Char → List Char → Bool
  | [], _ => true
  | _ :: _, [] => false
  | p :: ps, c :: cs => p == c && leadsWith ps cs

/-- Worker for `pyReplace` when the pattern is nonempty.  The `Nat` argument
is fuel; every step consumes at least one character of the subject, so fuel
equal to the subject's length makes the fuel inexhaustible. -/
def replGo (pat rep : List Char) : Nat → List Char → List Char
  | _, [] => []
  | 0, l => l
  | fuel + 1, c :: rest =>
      if !pat.isEmpty && leadsWith pat (c :: rest) then
        rep ++ replGo pat rep fuel (rest.drop (pat.length - 1))
      else
        c :: replGo pat rep fuel rest

/-- Python `s.replace(pat, rep)` on character lists, including Python's
behaviour on the empty pattern (`"abc".replace("", "-") = "-a-b-c-"`). -/
def pyReplace (pat rep s : List Char) : List Char :=
  if pat.isEmpty then rep ++ (s.map (fun c => c :: rep)).flatten
  else replGo pat rep s.length s

/-- Python `s.replace(pat, rep)` on strings. -/
def pyReplaceStr (pat rep s : String) : String :=
  String.mk (pyReplace pat.data rep.data s.data)

/-! ### SHA-256 (FIPS 180-4), on lists of byte values -/

/-- Truncation to a 32-bit word. -/
def w32 (x : Nat) : Nat := x % 4294967296

/-- Right rotation of a 32-bit word. -/
def rotr (n x : Nat) : Nat := w32 ((x >>> n) ||| (x <<< (32 - n)))

/-- SHA-256 `Ch` function. -/
def chFn (x y z : Nat) : Nat := (x &&& y) ^^^ ((x ^^^ 4294967295) &&& z)

/-- SHA-256 `Maj` function. -/
def majFn (x y z : Nat) : Nat := (x &&& y) ^^^ (x &&& z) ^^^ (y &&& z)

/-- SHA-256 Σ₀. -/
def bigSigma0 (x : Nat) : Nat := rotr 2 x ^^^ rotr 13 x ^^^ rotr 22 x

/-- SHA-256 Σ₁. -/
def bigSigma1 (x : Nat) : Nat := rotr 6 x ^^^ rotr 11 x ^^^ rotr 25 x

/-- SHA-256 σ₀. -/
def smallSigma0 (x : Nat) : Nat := rotr 7 x ^^^ rotr 18 x ^^^ (x >>> 3)

/-- SHA-256 σ₁. -/
def smallSigma1 (x : Nat) : Nat := rotr 17 x ^^^ rotr 19 x ^^^ (x >>> 10)

/-- SHA-256 round constants K₀..K₆₃. -/
def sha256K : List Nat :=
  [1116352408, 1899447441, 3049323471, 3921009573, 961987163, 1508970993,
   2453635748, 2870763221, 3624381080, 310598401, 607225278, 1426881987,
   1925078388, 2162078206, 2614888103, 3248222580, 3835390401, 4022224774,
   264347078, 604807628, 770255983, 1249150122, 1555081692, 1996064986,
   2554220882, 2821834349, 2952996808, 3210313671, 3336571891, 3584528711,
   113926993, 338241895, 666307205, 773529912, 1294757372, 1396182291,
   1695183700, 1986661051, 2177026350, 2456956037, 2730485921, 2820302411,
   3259730800, 3345764771, 3516065817, 3600352804, 4094571909, 275423344,
   430227734, 506948616, 659060556, 883997877, 958139571, 1322822218,
   1537002063, 1747873779, 1955562222, 2024104815, 2227730452, 2361852424,
   2428436474, 2756734187, 3204031479, 3329325298]

/-- Working state of the SHA-256 compression function. -/
structure Sha256St where
  a : Nat
  b : Nat
  c : Nat
  d : Nat
  e : Nat
  f : Nat
  g : Nat
  h : Nat
deriving DecidableEq

/-- Initial SHA-256 hash value H⁽⁰⁾. -/
def sha256Init : Sha256St :=
  ⟨1779033703, 3144134277, 1013904242, 2773480762,
   1359893119, 2600822924, 528734635, 1541459225⟩

/-- One SHA-256 round, consuming one pair of round constant and schedule word. -/
def shaStep (s : Sha256St) (kw : Nat × Nat) : Sha256St :=
  let t1 := w32 (s.h + bigSigma1 s.e + chFn s.e s.f s.g + kw.1 + kw.2)
  let t2 := w32 (bigSigma0 s.a + majFn s.a s.b s.c)
  ⟨w32 (t1 + t2), s.a, s.b, s.c, w32 (s.d + t1), s.e, s.f, s.g⟩

/-- Big-endian 32-bit words from a list of bytes (groups of four). -/
def bytesToWords : List Nat → List Nat
  | b0 :: b1 :: b2 :: b3 :: rest =>
      (((b0 * 256 + b1) * 256 + b2) * 256 + b3) :: bytesToWords rest
  | _ => []

/-- Extend the message schedule by `n` further words.  The accumulator holds
the schedule so far in reverse order (most recent word first). -/
def extendW : Nat → List Nat → List Nat
  | 0, rw => rw
  | n + 1, rw =>
      let wt := w32 (smallSigma1 (rw.getD 1 0) + rw.getD 6 0 +
        smallSigma0 (rw.getD 14 0) + rw.getD 15 0)
      extendW n (wt :: rw)

/-- The 64-word message schedule of one 64-byte block. -/
def scheduleOf (block : List Nat) : List Nat :=
  (extendW 48 (bytesToWords block).reverse).reverse

/-- Word-wise modular addition of two SHA-256 states. -/
def addStates (x y : Sha256St) : Sha256St :=
  ⟨w32 (x.a + y.a), w32 (x.b + y.b), w32 (x.c + y.c), w32 (x.d + y.d),
   w32 (x.e + y.e), w32 (x.f + y.f), w32 (x.g + y.g), w32 (x.h + y.h)⟩

/-- SHA-256 compression of a single 64-byte block. -/
def compressBlock (s : Sha256St) (block : List Nat) : Sha256St :=
  addStates s ((sha256K.zip (scheduleOf block)).foldl shaStep s)

/-- Worker for `chunkList`; the `Nat` argument is fuel, and every step
consumes at least one element, so fuel equal to the list's length suffices. -/
def chunkGo (n : Nat) : Nat → List Nat → List (List Nat)
  | _, [] => []
  | 0, _ => []
  | fuel + 1, l => l.take n :: chunkGo n fuel (l.drop n)

/-- Split a list into consecutive chunks of `n` elements (`n > 0`). -/
def chunkList (n : Nat) (l : List Nat) : List (List Nat) :=
  if n == 0 then [] else chunkGo n l.length l

/-- The eight big-endian bytes of the 64-bit message length field. -/
def lenBytes (n : Nat) : List Nat :=
  [(n >>> 56) % 256, (n >>> 48) % 256, (n >>> 40) % 256, (n >>> 32) % 256,
   (n >>> 24) % 256, (n >>> 16) % 256, (n >>> 8) % 256, n % 256]

/-- SHA-256 message padding: append `128`, zeros, and the bit length, so the
total length is a multiple of 64 bytes. -/
def sha256Pad (msg : List Nat) : List Nat :=
  msg ++ 128 :: (List.replicate ((119 - msg.length % 64) % 64) 0 ++
    lenBytes (8 * msg.length))

/-- The four big-endian bytes of a 32-bit word. -/
def wordBytes (n : Nat) : List Nat :=
  [(n >>> 24) % 256, (n >>> 16) % 256, (n >>> 8) % 256, n % 256]

/-- The 32-byte digest corresponding to a final SHA-256 state. -/
def stateToBytes (s : Sha256St) : List Nat :=
  wordBytes s.a ++ wordBytes s.b ++ wordBytes s.c ++ wordBytes s.d ++
  wordBytes s.e ++ wordBytes s.f ++ wordBytes s.g ++ wordBytes s.h

/-- SHA-256 digest (32 bytes) of a byte list; models `hashlib.sha256(x).digest()`. -/
def sha256 (msg : List Nat) : List Nat :=
  stateToBytes ((chunkList 64 (sha256Pad msg)).foldl compressBlock sha256Init)

/-! ### URL-safe base64 without padding, and UTF-8 encoding -/

/-- The URL-safe base64 alphabet (RFC 4648 §5). -/
def b64urlAlphabet : List Char :=
  "ABCDEFGHIJKLMNOPQRSTUVWXYZabcdefghijklmnopqrstuvwxyz0123456789-_".data

/-- The base64 character for a 6-bit group. -/
def b64Char (n : Nat) : Char := b64urlAlphabet.getD n 'A'

/-- URL-safe base64 encoding with the `=` padding characters removed; models
`base64.urlsafe_b64encode(bs).decode("utf-8").replace("=", "")`. -/
def b64urlEncodeNoPad : List Nat → List Char
  | [] => []
  | [b0] => [b64Char (b0 >>> 2), b64Char ((b0 % 4) <<< 4)]
  | [b0, b1] =>
      [b64Char (b0 >>> 2), b64Char (((b0 % 4) <<< 4) + (b1 >>> 4)),
       b64Char ((b1 % 16) <<< 2)]
  | b0 :: b1 :: b2 :: rest =>
      b64Char (b0 >>> 2) :: b64Char (((b0 % 4) <<< 4) + (b1 >>> 4)) ::
      b64Char (((b1 % 16) <<< 2) + (b2 >>> 6)) :: b64Char (b2 % 64) ::
      b64urlEncodeNoPad rest

/-- UTF-8 encoding of one Unicode code point. -/
def utf8Bytes (ch : Char) : List Nat :=
  let n := ch.toNat
  if n < 128 then [n]
  else if n < 2048 then [192 + n / 64, 128 + n % 64]
  else if n < 65536 then
    [224 + n / 4096, 128 + (n / 64) % 64, 128 + n % 64]
  else
    [240 + n / 262144, 128 + (n / 4096) % 64, 128 + (n / 64) % 64,
     128 + n % 64]

/-- UTF-8 bytes of a string; models `s.encode("utf-8")`. -/
def strBytes (s : String) : List Nat := (s.data.map utf8Bytes).flatten

/-! ### PKCE verifier and challenge -/

/-- The alphabet string passed to `secrets.choice` in the source. -/
def pkceAlphabet : String :=
  "abcdefghijklmnopqrstuvwxyzABCDEFGHIJKLMNOPQRSTUVWXYZ0123456789"

/-- The PKCE code verifier: 128 characters chosen from `pkceAlphabet`.
`secrets.choice` is modelled by the oracle `rand`, reduced modulo the
alphabet length so that every oracle yields an in-range index. -/
def genVerifier (rand : Nat → Nat) : String :=
  String.mk ((List.range 128).map
    (fun i => pkceAlphabet.data.getD (rand i % pkceAlphabet.length) 'a'))

/-- The PKCE code challenge derived from a verifier:
`base64.urlsafe_b64encode(hashlib.sha256(v.encode("utf-8")).digest())` with
`=` removed. -/
def mkChallenge (verifier : String) : String :=
  String.mk (b64urlEncodeNoPad (sha256 (strBytes verifier)))

/-! ### HTTP model

Responses are supplied by oracles: `deviceResp` for the single
device-authorization request and `tokenResps i` for the `i`-th token poll.
A response carries its status code, its raw body text, and the result of
`response.json()` — `none` when the body is not parseable, otherwise a JSON
object modelled as an association list of string fields. -/

/-- An HTTP response, as observed through `requests`. -/
structure HttpResponse where
  status : Nat
  text : String
  json : Option (List (String × String))
deriving DecidableEq

/-- An outgoing HTTP POST issued through `requests.post`. -/
structure Request where
  url : String
  body : List (String × String)
  headers : List (String × String)
  allowRedirects : Bool
deriving DecidableEq

/-- Observable actions of one run of the flow, in order. -/
inductive Event where
  | devicePost (r : Request)
  | pollPost (r : Request)
  | sleep (seconds : Nat)
  | display (url : String)
deriving DecidableEq

/-- Result of one run of the flow.  The two error constructors carrying a
status and body correspond to `requests.HTTPError` raised by
`response.raise_for_status()` at the device-code request and in the polling
loop respectively (the spec's `DeviceAuthorizationError` and
`TokenExchangeError`).  `deviceJsonError`/`deviceKeyError`/`tokenParseError`
model the uncaught `ValueError`/`KeyError` paths, and `outOfFuel` means the
loop was still polling when the modelling fuel ran out. -/
inductive Outcome where
  | success (body : List (String × String))
  | deviceAuthorizationError (status : Nat) (body : String)
  | deviceJsonError (status : Nat)
  | deviceKeyError (status : Nat)
  | tokenExchangeError (status : Nat) (body : String)
  | tokenParseError (status : Nat)
  | outOfFuel
deriving DecidableEq

/-- The requests sent to the device endpoint, in order. -/
def deviceRequests (evs : List Event) : List Request :=
  evs.filterMap fun e =>
    match e with
    | Event.devicePost r => some r
    | _ => none

/-- The requests sent to the token endpoint, in order. -/
def pollRequests (evs : List Event) : List Request :=
  evs.filterMap fun e =>
    match e with
    | Event.pollPost r => some r
    | _ => none

/-- The durations of the sleeps performed, in order. -/
def sleepDurations (evs : List Event) : List Nat :=
  evs.filterMap fun e =>
    match e with
    | Event.sleep s => some s
    | _ => none

/-- The URLs displayed to the user, in order. -/
def displayedUrls (evs : List Event) : List String :=
  evs.filterMap fun e =>
    match e with
    | Event.display u => some u
    | _ => none

/-- The trace with the display emissions removed (used to state that the
rewrite map influences nothing but the displayed URL). -/
def nonDisplayEvents (evs : List Event) : List Event :=
  evs.filter fun e =>
    match e with
    | Event.display _ => false
    | _ => true

/-! ### The embedded flow -/

/-- Python `response.raise_for_status()` raises exactly for statuses in
[400, 600). -/
def raisesForStatus (status : Nat) : Bool :=
  decide (400 ≤ status ∧ status < 600)

/-- Scope resolution: `if scope is None: scope = client_id`. -/
def resolveScope (scope : Option String) (client_id : String) : String :=
  match scope with
  | none => client_id
  | some s => s

/-- The request headers: `Content-type` always; `Host` added by
`if host_header:` (Python truthiness, so an empty string adds nothing). -/
def mkHeaders (host_header : Option String) : List (String × String) :=
  ("Content-type", "application/x-www-form-urlencoded") ::
    (match host_header with
     | some hh => if hh = "" then [] else [("Host", hh)]
     | none => [])

/-- The device-code request body: `client_id`, `code_challenge_method`,
`code_challenge`, then `scope` added by `if scope:` (Python truthiness). -/
def deviceData (client_id challenge scope1 : String) : List (String × String) :=
  [("client_id", client_id), ("code_challenge_method", "S256"),
   ("code_challenge", challenge)] ++
    (if scope1 = "" then [] else [("scope", scope1)])

/-- The token-poll request body. -/
def pollBody (client_id device_code verifier : String) : List (String × String) :=
  [("grant_type", "urn:ietf:params:oauth:grant-type:device_code"),
   ("client_id", client_id),
   ("device_code", device_code),
   ("code_verifier", verifier)]

/-- The `error` field of a response body, when the body parsed as JSON. -/
def errLookup (r : HttpResponse) : Option String :=
  match r.json with
  | some j => j.lookup "error"
  | none => none

/-- The endpoint rewrite loop applied to the verification URL:
`for original, replacement in endpoint_rewrite.items(): uri = uri.replace(...)`
(an empty mapping leaves the URL unchanged, like the skipped `if`). -/
def rewriteUri (endpoint_rewrite : List (String × String)) (uri : String) : String :=
  endpoint_rewrite.foldl (fun u p => pyReplaceStr p.1 p.2 u) uri

/-- Default value of the `endpoint_rewrite` parameter in the Python
signature, used when the caller omits the argument. -/
def endpointRewriteDefault : List (String × String) :=
  [("lakekeeper-keycloak:8080", "localhost:30080")]

/-- The `while True` token-polling loop, with explicit fuel.  `i` counts the
polls already made, indexing the oracle `tokenResps`.  Returns the events of
the loop and the outcome. -/
def pollLoop (token_endpoint client_id device_code verifier : String)
    (headers : List (String × String)) (polling_interval : Nat)
    (tokenResps : Nat → HttpResponse) : Nat → Nat → List Event × Outcome
  | 0, _ => ([], Outcome.outOfFuel)
  | fuel + 1, i =>
      let req : Request :=
        ⟨token_endpoint, pollBody client_id device_code verifier, headers, false⟩
      let resp := tokenResps i
      if resp.status = 200 then
        match resp.json with
        | some j => ([Event.pollPost req], Outcome.success j)
        | none => ([Event.pollPost req], Outcome.tokenParseError resp.status)
      else
        match resp.json with
        | some j =>
          if j.lookup "error" = some "authorization_pending" then
            let r := pollLoop token_endpoint client_id device_code verifier
              headers polling_interval tokenResps fuel (i + 1)
            (Event.pollPost req :: Event.sleep polling_interval :: r.1, r.2)
          else if raisesForStatus resp.status then
            ([Event.pollPost req], Outcome.tokenExchangeError resp.status resp.text)
          else
            let r := pollLoop token_endpoint client_id device_code verifier
              headers polling_interval tokenResps fuel (i + 1)
            (Event.pollPost req :: r.1, r.2)
        | none =>
          if raisesForStatus resp.status then
            ([Event.pollPost req], Outcome.tokenExchangeError resp.status resp.text)
          else
            let r := pollLoop token_endpoint client_id device_code verifier
              headers polling_interval tokenResps fuel (i + 1)
            (Event.pollPost req :: r.1, r.2)

/-- Shallow embedding of `authenticate_device_flow_with_pkce`.  `fuel` bounds
the number of poll iterations observed, `rand` models `secrets.choice`,
`deviceResp` and `tokenResps` model the network.  The remaining parameters
are the Python parameters (the Python defaults are `scope = none`,
`host_header = none`, `polling_interval = 5`,
`endpoint_rewrite = endpointRewriteDefault`). -/
def authenticate_device_flow_with_pkce
    (fuel : Nat) (rand : Nat → Nat)
    (deviceResp : HttpResponse) (tokenResps : Nat → HttpResponse)
    (token_endpoint device_endpoint client_id : String)
    (scope host_header : Option String) (polling_interval : Nat)
    (endpoint_rewrite : List (String × String)) : List Event × Outcome :=
  let scope1 := resolveScope scope client_id
  let verifier := genVerifier rand
  let challenge := mkChallenge verifier
  let headers := mkHeaders host_header
  let devReq : Request :=
    ⟨device_endpoint, deviceData client_id challenge scope1, headers, false⟩
  if raisesForStatus deviceResp.status then
    ([Event.devicePost devReq],
     Outcome.deviceAuthorizationError deviceResp.status deviceResp.text)
  else
    match deviceResp.json with
    | none => ([Event.devicePost devReq], Outcome.deviceJsonError deviceResp.status)
    | some j =>
      match j.lookup "verification_uri_complete", j.lookup "device_code" with
      | some uri, some device_code =>
          let r := pollLoop token_endpoint client_id device_code verifier headers
            polling_interval tokenResps fuel 0
          (Event.devicePost devReq ::
             Event.display (rewriteUri endpoint_rewrite uri) :: r.1, r.2)
      | _, _ => ([Event.devicePost devReq], Outcome.deviceKeyError deviceResp.status)

/-! ### Derived notions used by the claims -/

/-- Lower-casing of a string, for case-insensitive HTTP header names. -/
def lowerStr (s : String) : String := String.mk (s.data.map Char.toLower)

/-- Case-insensitive header lookup (HTTP header field names are
case-insensitive, RFC 9110 §5.1). -/
def getHeaderCI (name : String) (headers : List (String × String)) : Option String :=
  (headers.find? fun p => lowerStr p.1 == lowerStr name).map Prod.snd

/-- The device-code request issued by a run with these arguments. -/
def deviceRequestOf (rand : Nat → Nat) (device_endpoint client_id : String)
    (scope host_header : Option String) : Request :=
  ⟨device_endpoint,
   deviceData client_id (mkChallenge (genVerifier rand)) (resolveScope scope client_id),
   mkHeaders host_header, false⟩

/-- The `i`-th token response is a non-200 `authorization_pending` signal. -/
def pendingAt (tokenResps : Nat → HttpResponse) (i : Nat) : Prop :=
  (tokenResps i).status ≠ 200 ∧ errLookup (tokenResps i) = some "authorization_pending"

/-- The conditions under which the polling loop polls again after this
response: `authorization_pending`, or any non-200 status that
`raise_for_status` does not treat as an error (outside [400, 600)). -/
def retriable (r : HttpResponse) : Prop :=
  r.status ≠ 200 ∧
    (errLookup r = some "authorization_pending" ∨ raisesForStatus r.status = false)

/-! ### Sanity theorems for the cryptographic layer -/

/-- SHA-256 always produces exactly 32 bytes. -/
theorem sha256_length (msg : List Nat) : (sha256 msg).length = 32 := rfl

/-- FIPS 180-4 test vector: digest of `"abc"`. -/
theorem sha256_vector_abc :
    sha256 [97, 98, 99] =
      [186, 120, 22, 191, 143, 1, 207, 234, 65, 65, 64, 222,
       93, 174, 34, 35, 176, 3, 97, 163, 150, 23, 122, 156,
       180, 16, 255, 97, 242, 0, 21, 173] := by decide

/-- Test vector: digest of the empty message. -/
theorem sha256_vector_empty :
    sha256 [] =
      [227, 176, 196, 66, 152, 252, 28, 20, 154, 251, 244, 200,
       153, 111, 185, 36, 39, 174, 65, 228, 100, 155, 147, 76,
       164, 149, 153, 27, 120, 82, 184, 85] := by decide

/-- RFC 4648 test vector: `urlsafe_b64encode(b"abc") = "YWJj"`. -/
theorem b64url_vector_abc : b64urlEncodeNoPad [97, 98, 99] = "YWJj".data := by
  decide

/-- Test vector exercising the URL-safe alphabet and padding removal:
`urlsafe_b64encode(bytes([251, 255])) = "-_8="`, so `"-_8"` once stripped. -/
theorem b64url_vector_urlsafe : b64urlEncodeNoPad [251, 255] = "-_8".data := by
  decide

/-- Length of the unpadded base64 encoding. -/
theorem b64urlEncodeNoPad_length (bs : List Nat) :
    (b64urlEncodeNoPad bs).length = (4 * bs.length + 2) / 3 := by
  induction bs using b64urlEncodeNoPad.induct with
  | case1 => simp [b64urlEncodeNoPad]
  | case2 b0 => simp [b64urlEncodeNoPad]
  | case3 b0 b1 => simp [b64urlEncodeNoPad]
  | case4 b0 b1 b2 rest ih =>
      simp only [b64urlEncodeNoPad, List.length_cons, ih]
      omega

/-- A generated verifier always has exactly 128 characters. -/
theorem genVerifier_length (rand : Nat → Nat) : (genVerifier rand).length = 128 := by
  show ((List.range 128).map
    (fun i => pkceAlphabet.data.getD (rand i % pkceAlphabet.length) 'a')).length = 128
  simp

set_option maxRecDepth 4000 in
/-- Every character of a generated verifier is drawn from the alphabet. -/
theorem genVerifier_chars (rand : Nat → Nat) :
    ∀ ch ∈ (genVerifier rand).data, ch ∈ pkceAlphabet.data := by
  have key : ∀ m : Nat, m < 62 → pkceAlphabet.data.getD m 'a' ∈ pkceAlphabet.data := by
    decide
  intro ch hch
  simp only [genVerifier, String.mk, List.mem_map, List.mem_range] at hch
  obtain ⟨i, _, rfl⟩ := hch
  exact key _ (Nat.mod_lt _ (by decide))

/-- A PKCE challenge always has exactly 43 characters. -/
theorem mkChallenge_length (s : String) : (mkChallenge s).length = 43 := by
  simp [mkChallenge, String.length, b64urlEncodeNoPad_length, sha256_length]

set_option maxRecDepth 100000 in
/-- Sanity vector computed with CPython: the challenge for the verifier
consisting of 128 `a` characters. -/
theorem mkChallenge_vector :
    mkChallenge (String.mk (List.replicate 128 'a')) =
      "aDbPE7rEAOkQUHHNavRwhN-srU5eMCyUv-0k4BOvtz4" := by decide

/-! ### Trace extractor computation rules -/

/-- Extractors on the empty trace. -/
@[simp] theorem deviceRequests_nil : deviceRequests [] = [] := rfl

@[simp] theorem pollRequests_nil : pollRequests [] = [] := rfl

@[simp] theorem sleepDurations_nil : sleepDurations [] = [] := rfl

@[simp] theorem displayedUrls_nil : displayedUrls [] = [] := rfl

@[simp] theorem nonDisplayEvents_nil : nonDisplayEvents [] = [] := rfl

/-- Extractors on a trace beginning with a device request. -/
@[simp] theorem deviceRequests_cons_device (r : Request) (evs : List Event) :
    deviceRequests (Event.devicePost r :: evs) = r :: deviceRequests evs := rfl

@[simp] theorem pollRequests_cons_device (r : Request) (evs : List Event) :
    pollRequests (Event.devicePost r :: evs) = pollRequests evs := rfl

@[simp] theorem sleepDurations_cons_device (r : Request) (evs : List Event) :
    sleepDurations (Event.devicePost r :: evs) = sleepDurations evs := rfl

@[simp] theorem displayedUrls_cons_device (r : Request) (evs : List Event) :
    displayedUrls (Event.devicePost r :: evs) = displayedUrls evs := rfl

@[simp] theorem nonDisplayEvents_cons_device (r : Request) (evs : List Event) :
    nonDisplayEvents (Event.devicePost r :: evs) =
      Event.devicePost r :: nonDisplayEvents evs := rfl

/-- Extractors on a trace beginning with a poll request. -/
@[simp] theorem deviceRequests_cons_poll (r : Request) (evs : List Event) :
    deviceRequests (Event.pollPost r :: evs) = deviceRequests evs := rfl

@[simp] theorem pollRequests_cons_poll (r : Request) (evs : List Event) :
    pollRequests (Event.pollPost r :: evs) = r :: pollRequests evs := rfl

@[simp] theorem sleepDurations_cons_poll (r : Request) (evs : List Event) :
    sleepDurations (Event.pollPost r :: evs) = sleepDurations evs := rfl

@[simp] theorem displayedUrls_cons_poll (r : Request) (evs : List Event) :
    displayedUrls (Event.pollPost r :: evs) = displayedUrls evs := rfl

@[simp] theorem nonDisplayEvents_cons_poll (r : Request) (evs : List Event) :
    nonDisplayEvents (Event.pollPost r :: evs) =
      Event.pollPost r :: nonDisplayEvents evs := rfl

/-- Extractors on a trace beginning with a sleep. -/
@[simp] theorem deviceRequests_cons_sleep (s : Nat) (evs : List Event) :
    deviceRequests (Event.sleep s :: evs) = deviceRequests evs := rfl

@[simp] theorem pollRequests_cons_sleep (s : Nat) (evs : List Event) :
    pollRequests (Event.sleep s :: evs) = pollRequests evs := rfl

@[simp] theorem sleepDurations_cons_sleep (s : Nat) (evs : List Event) :
    sleepDurations (Event.sleep s :: evs) = s :: sleepDurations evs := rfl

@[simp] theorem displayedUrls_cons_sleep (s : Nat) (evs : List Event) :
    displayedUrls (Event.sleep s :: evs) = displayedUrls evs := rfl

@[simp] theorem nonDisplayEvents_cons_sleep (s : Nat) (evs : List Event) :
    nonDisplayEvents (Event.sleep s :: evs) = Event.sleep s :: nonDisplayEvents evs := rfl

/-- Extractors on a trace beginning with a display. -/
@[simp] theorem deviceRequests_cons_display (u : String) (evs : List Event) :
    deviceRequests (Event.display u :: evs) = deviceRequests evs := rfl

@[simp] theorem pollRequests_cons_display (u : String) (evs : List Event) :
    pollRequests (Event.display u :: evs) = pollRequests evs := rfl

@[simp] theorem sleepDurations_cons_display (u : String) (evs : List Event) :
    sleepDurations (Event.display u :: evs) = sleepDurations evs := rfl

@[simp] theorem displayedUrls_cons_display (u : String) (evs : List Event) :
    displayedUrls (Event.display u :: evs) = u :: displayedUrls evs := rfl

@[simp] theorem nonDisplayEvents_cons_display (u : String) (evs : List Event) :
    nonDisplayEvents (Event.display u :: evs) = nonDisplayEvents evs := rfl

/-! ### Structural lemmas about the polling loop -/

/-- Every event of the polling loop is either the poll request determined by
the loop's parameters, or a sleep of the polling interval. -/
theorem pollLoop_event_mem (te cid dc v : String) (hs : List (String × String))
    (ivl : Nat) (resp : Nat → HttpResponse) :
    ∀ fuel i e, e ∈ (pollLoop te cid dc v hs ivl resp fuel i).1 →
      e = Event.pollPost ⟨te, pollBody cid dc v, hs, false⟩ ∨ e = Event.sleep ivl := by
  intro fuel
  induction fuel with
  | zero => intro i e he; simp [pollLoop] at he
  | succ fuel ih =>
      intro i e he
      simp only [pollLoop] at he
      split at he
      · split at he <;> simp at he <;> simp [he]
      · split at he
        · split at he
          · simp only [List.mem_cons] at he
            rcases he with rfl | rfl | he
            · simp
            · simp
            · exact ih (i + 1) e he
          · split at he
            · simp at he; simp [he]
            · simp only [List.mem_cons] at he
              rcases he with rfl | he
              · simp
              · exact ih (i + 1) e he
        · split at he
          · simp at he; simp [he]
          · simp only [List.mem_cons] at he
            rcases he with rfl | he
            · simp
            · exact ih (i + 1) e he

/-- Every poll request of the loop is the request determined by the loop's
parameters. -/
theorem pollLoop_requests_mem (te cid dc v : String) (hs : List (String × String))
    (ivl : Nat) (resp : Nat → HttpResponse) (fuel i : Nat) (r : Request)
    (hr : r ∈ pollRequests (pollLoop te cid dc v hs ivl resp fuel i).1) :
    r = ⟨te, pollBody cid dc v, hs, false⟩ := by
  simp only [pollRequests, List.mem_filterMap] at hr
  obtain ⟨e, he, hfe⟩ := hr
  rcases pollLoop_event_mem te cid dc v hs ivl resp fuel i e he with rfl | rfl
  · simpa using hfe.symm
  · simp at hfe

/-- Every sleep of the loop lasts the polling interval. -/
theorem pollLoop_sleeps_mem (te cid dc v : String) (hs : List (String × String))
    (ivl : Nat) (resp : Nat → HttpResponse) (fuel i : Nat) (s : Nat)
    (hsum : s ∈ sleepDurations (pollLoop te cid dc v hs ivl resp fuel i).1) :
    s = ivl := by
  simp only [sleepDurations, List.mem_filterMap] at hsum
  obtain ⟨e, he, hfe⟩ := hsum
  rcases pollLoop_event_mem te cid dc v hs ivl resp fuel i e he with rfl | rfl
  · simp at hfe
  · simpa using hfe.symm

/-- The polling loop issues no device request. -/
theorem pollLoop_deviceRequests (te cid dc v : String) (hs : List (String × String))
    (ivl : Nat) (resp : Nat → HttpResponse) (fuel i : Nat) :
    deviceRequests (pollLoop te cid dc v hs ivl resp fuel i).1 = [] := by
  rw [deviceRequests, List.filterMap_eq_nil_iff]
  intro e he
  rcases pollLoop_event_mem te cid dc v hs ivl resp fuel i e he with rfl | rfl <;> rfl

/-- The polling loop displays nothing. -/
theorem pollLoop_displays (te cid dc v : String) (hs : List (String × String))
    (ivl : Nat) (resp : Nat → HttpResponse) (fuel i : Nat) :
    displayedUrls (pollLoop te cid dc v hs ivl resp fuel i).1 = [] := by
  rw [displayedUrls, List.filterMap_eq_nil_iff]
  intro e he
  rcases pollLoop_event_mem te cid dc v hs ivl resp fuel i e he with rfl | rfl <;> rfl

/-- Unfolding: exhausted fuel. -/
theorem pollLoop_zero (te cid dc v : String) (hs : List (String × String))
    (ivl : Nat) (resp : Nat → HttpResponse) (i : Nat) :
    pollLoop te cid dc v hs ivl resp 0 i = ([], Outcome.outOfFuel) := rfl

/-- Unfolding: a 200 response with a JSON body ends the loop successfully. -/
theorem pollLoop_succ_200 (te cid dc v : String) (hs : List (String × String))
    (ivl : Nat) (resp : Nat → HttpResponse) (fuel i : Nat)
    (j : List (String × String))
    (h200 : (resp i).status = 200) (hj : (resp i).json = some j) :
    pollLoop te cid dc v hs ivl resp (fuel + 1) i =
      ([Event.pollPost ⟨te, pollBody cid dc v, hs, false⟩], Outcome.success j) := by
  simp [pollLoop, h200, hj]

/-- Unfolding: an `authorization_pending` error sleeps and loops. -/
theorem pollLoop_succ_pending (te cid dc v : String) (hs : List (String × String))
    (ivl : Nat) (resp : Nat → HttpResponse) (fuel i : Nat)
    (hpend : pendingAt resp i) :
    pollLoop te cid dc v hs ivl resp (fuel + 1) i =
      (Event.pollPost ⟨te, pollBody cid dc v, hs, false⟩ :: Event.sleep ivl ::
         (pollLoop te cid dc v hs ivl resp fuel (i + 1)).1,
       (pollLoop te cid dc v hs ivl resp fuel (i + 1)).2) := by
  obtain ⟨h200, herr⟩ := hpend
  rw [errLookup] at herr
  rcases hj : (resp i).json with _ | j
  · rw [hj] at herr; simp at herr
  · rw [hj] at herr
    simp at herr
    simp [pollLoop, h200, hj, herr]

/-- Unfolding: a non-200 response that is not `authorization_pending` and
whose status is in [400, 600) raises `requests.HTTPError`. -/
theorem pollLoop_succ_fatal (te cid dc v : String) (hs : List (String × String))
    (ivl : Nat) (resp : Nat → HttpResponse) (fuel i : Nat)
    (h200 : (resp i).status ≠ 200)
    (hnp : errLookup (resp i) ≠ some "authorization_pending")
    (hraise : raisesForStatus (resp i).status = true) :
    pollLoop te cid dc v hs ivl resp (fuel + 1) i =
      ([Event.pollPost ⟨te, pollBody cid dc v, hs, false⟩],
       Outcome.tokenExchangeError (resp i).status (resp i).text) := by
  rw [errLookup] at hnp
  rcases hj : (resp i).json with _ | j
  · simp [pollLoop, h200, hj, hraise]
  · rw [hj] at hnp
    simp at hnp
    simp [pollLoop, h200, hj, hnp, hraise]

/-- Unfolding: a non-200 response that is not `authorization_pending` but
whose status is outside [400, 600) makes `raise_for_status` a no-op, so the
loop silently polls again without sleeping. -/
theorem pollLoop_succ_skip (te cid dc v : String) (hs : List (String × String))
    (ivl : Nat) (resp : Nat → HttpResponse) (fuel i : Nat)
    (h200 : (resp i).status ≠ 200)
    (hnp : errLookup (resp i) ≠ some "authorization_pending")
    (hraise : raisesForStatus (resp i).status = false) :
    pollLoop te cid dc v hs ivl resp (fuel + 1) i =
      (Event.pollPost ⟨te, pollBody cid dc v, hs, false⟩ ::
         (pollLoop te cid dc v hs ivl resp fuel (i + 1)).1,
       (pollLoop te cid dc v hs ivl resp fuel (i + 1)).2) := by
  rw [errLookup] at hnp
  rcases hj : (resp i).json with _ | j
  · simp [pollLoop, h200, hj, hraise]
  · rw [hj] at hnp
    simp at hnp
    simp [pollLoop, h200, hj, hnp, hraise]

/-- With nonzero fuel the loop issues at least one poll request. -/
theorem pollLoop_polls_pos (te cid dc v : String) (hs : List (String × String))
    (ivl : Nat) (resp : Nat → HttpResponse) (fuel i : Nat) :
    1 ≤ (pollRequests (pollLoop te cid dc v hs ivl resp (fuel + 1) i).1).length := by
  simp only [pollLoop]
  split
  · split <;> simp [pollRequests]
  · split
    · split
      · simp [pollRequests]
      · split
        · simp [pollRequests]
        · simp [pollRequests]
    · split
      · simp [pollRequests]
      · simp [pollRequests]

/-- Under `n` consecutive `authorization_pending` responses the loop, run
with fuel `n`, issues exactly `n` polls and `n` sleeps and is still polling
(it has neither returned nor raised). -/
theorem pollLoop_pending_run (te cid dc v : String) (hs : List (String × String))
    (ivl : Nat) (resp : Nat → HttpResponse) :
    ∀ n i, (∀ k, k < n → pendingAt resp (i + k)) →
      (pollLoop te cid dc v hs ivl resp n i).2 = Outcome.outOfFuel ∧
      (pollRequests (pollLoop te cid dc v hs ivl resp n i).1).length = n ∧
      (sleepDurations (pollLoop te cid dc v hs ivl resp n i).1).length = n := by
  intro n
  induction n with
  | zero => intro i _; simp [pollLoop_zero, pollRequests, sleepDurations]
  | succ n ih =>
      intro i hp
      have h0 : pendingAt resp (i + 0) := hp 0 (Nat.succ_pos n)
      rw [Nat.add_zero] at h0
      rw [pollLoop_succ_pending te cid dc v hs ivl resp n i h0]
      have hrec := ih (i + 1) (fun k hk => by
        have := hp (k + 1) (Nat.succ_lt_succ hk)
        rwa [Nat.add_comm k 1, ← Nat.add_assoc] at this)
      refine ⟨hrec.1, ?_, ?_⟩
      · simp [hrec.2.1]
      · simp [hrec.2.2]

/-- Under `n` consecutive `authorization_pending` responses the loop, given
one more unit of fuel, issues an `(n+1)`-st poll request. -/
theorem pollLoop_pending_extra (te cid dc v : String) (hs : List (String × String))
    (ivl : Nat) (resp : Nat → HttpResponse) :
    ∀ n i, (∀ k, k < n → pendingAt resp (i + k)) →
      (pollRequests (pollLoop te cid dc v hs ivl resp (n + 1) i).1).length = n + 1 := by
  intro n
  induction n with
  | zero =>
      intro i _
      simp only [pollLoop]
      split
      · split <;> simp [pollRequests]
      · split
        · split
          · simp [pollLoop_zero, pollRequests]
          · split <;> simp [pollLoop_zero, pollRequests]
        · split <;> simp [pollLoop_zero, pollRequests]
  | succ n ih =>
      intro i hp
      have h0 : pendingAt resp (i + 0) := hp 0 (Nat.succ_pos n)
      rw [Nat.add_zero] at h0
      rw [pollLoop_succ_pending te cid dc v hs ivl resp (n + 1) i h0]
      have hrec := ih (i + 1) (fun k hk => by
        have := hp (k + 1) (Nat.succ_lt_succ hk)
        rwa [Nat.add_comm k 1, ← Nat.add_assoc] at this)
      simp [hrec]

/-- With fuel at least two, a second poll request is issued exactly when the
first response is retried: non-200 and either `authorization_pending` or a
status `raise_for_status` ignores. -/
theorem pollLoop_retry_iff (te cid dc v : String) (hs : List (String × String))
    (ivl : Nat) (resp : Nat → HttpResponse) (fuel i : Nat) :
    2 ≤ (pollRequests (pollLoop te cid dc v hs ivl resp (fuel + 2) i).1).length ↔
      retriable (resp i) := by
  constructor
  · intro hlen
    by_contra hnr
    rw [retriable] at hnr
    rcases Decidable.em ((resp i).status = 200) with h200 | h200
    · rcases hj : (resp i).json with _ | j
      · rw [show fuel + 2 = (fuel + 1) + 1 by omega] at hlen
        simp only [pollLoop, h200, hj] at hlen
        simp [pollRequests] at hlen
      · rw [show fuel + 2 = (fuel + 1) + 1 by omega,
          pollLoop_succ_200 te cid dc v hs ivl resp (fuel + 1) i j h200 hj] at hlen
        simp [pollRequests] at hlen
    · have hnp : errLookup (resp i) ≠ some "authorization_pending" := by
        intro hcon
        exact hnr ⟨h200, Or.inl hcon⟩
      have hraise : raisesForStatus (resp i).status = true := by
        rcases Bool.eq_false_or_eq_true (raisesForStatus (resp i).status) with hb | hb
        · exact hb
        · exact absurd ⟨h200, Or.inr hb⟩ hnr
      rw [show fuel + 2 = (fuel + 1) + 1 by omega,
        pollLoop_succ_fatal te cid dc v hs ivl resp (fuel + 1) i h200 hnp hraise] at hlen
      simp [pollRequests] at hlen
  · intro hret
    obtain ⟨h200, hcase⟩ := hret
    rcases Decidable.em (errLookup (resp i) = some "authorization_pending") with hp | hp
    · rw [show fuel + 2 = (fuel + 1) + 1 by omega,
        pollLoop_succ_pending te cid dc v hs ivl resp (fuel + 1) i ⟨h200, hp⟩]
      have := pollLoop_polls_pos te cid dc v hs ivl resp fuel (i + 1)
      simp only [pollRequests] at this ⊢
      simp
      omega
    · have hraise : raisesForStatus (resp i).status = false := by
        rcases hcase with hc | hc
        · exact absurd hc hp
        · exact hc
      rw [show fuel + 2 = (fuel + 1) + 1 by omega,
        pollLoop_succ_skip te cid dc v hs ivl resp (fuel + 1) i h200 hp hraise]
      have := pollLoop_polls_pos te cid dc v hs ivl resp fuel (i + 1)
      simp only [pollRequests] at this ⊢
      simp
      omega

/-! ### Structural lemmas about the whole flow -/

/-- Unfolding: a device response with status in [400, 600) raises before any
polling. -/
theorem flow_deviceFail (fuel : Nat) (rand : Nat → Nat) (deviceResp : HttpResponse)
    (tokenResps : Nat → HttpResponse) (te de cid : String)
    (scope hh : Option String) (ivl : Nat) (rmap : List (String × String))
    (hstat : raisesForStatus deviceResp.status = true) :
    authenticate_device_flow_with_pkce fuel rand deviceResp tokenResps
        te de cid scope hh ivl rmap =
      ([Event.devicePost (deviceRequestOf rand de cid scope hh)],
       Outcome.deviceAuthorizationError deviceResp.status deviceResp.text) := by
  simp [authenticate_device_flow_with_pkce, deviceRequestOf, hstat]

/-- Unfolding: a device response that does not raise and carries both JSON
fields leads to the display and the polling loop. -/
theorem flow_ok (fuel : Nat) (rand : Nat → Nat) (deviceResp : HttpResponse)
    (tokenResps : Nat → HttpResponse) (te de cid : String)
    (scope hh : Option String) (ivl : Nat) (rmap : List (String × String))
    (j : List (String × String)) (uri dc : String)
    (hstat : raisesForStatus deviceResp.status = false)
    (hjson : deviceResp.json = some j)
    (huri : j.lookup "verification_uri_complete" = some uri)
    (hdc : j.lookup "device_code" = some dc) :
    authenticate_device_flow_with_pkce fuel rand deviceResp tokenResps
        te de cid scope hh ivl rmap =
      (Event.devicePost (deviceRequestOf rand de cid scope hh) ::
         Event.display (rewriteUri rmap uri) ::
         (pollLoop te cid dc (genVerifier rand) (mkHeaders hh) ivl tokenResps fuel 0).1,
       (pollLoop te cid dc (genVerifier rand) (mkHeaders hh) ivl tokenResps fuel 0).2) := by
  simp [authenticate_device_flow_with_pkce, deviceRequestOf, hstat, hjson, huri, hdc]

/-- Every run issues exactly one device-code request, and it is the request
determined by the arguments. -/
theorem flow_deviceRequests (fuel : Nat) (rand : Nat → Nat) (deviceResp : HttpResponse)
    (tokenResps : Nat → HttpResponse) (te de cid : String)
    (scope hh : Option String) (ivl : Nat) (rmap : List (String × String)) :
    deviceRequests (authenticate_device_flow_with_pkce fuel rand deviceResp tokenResps
        te de cid scope hh ivl rmap).1 =
      [deviceRequestOf rand de cid scope hh] := by
  simp only [authenticate_device_flow_with_pkce]
  split
  · simp [deviceRequestOf]
  · split
    · simp [deviceRequestOf]
    · split
      · simp [deviceRequestOf, pollLoop_deviceRequests]
      · simp [deviceRequestOf]

/-- Every poll request of a run goes to the token endpoint with the headers
computed from `host_header`, without redirects, and with the poll body built
from the client id, some device code, and the generated verifier. -/
theorem flow_pollRequests_mem (fuel : Nat) (rand : Nat → Nat) (deviceResp : HttpResponse)
    (tokenResps : Nat → HttpResponse) (te de cid : String)
    (scope hh : Option String) (ivl : Nat) (rmap : List (String × String))
    (r : Request)
    (hmem : r ∈ pollRequests (authenticate_device_flow_with_pkce fuel rand deviceResp
      tokenResps te de cid scope hh ivl rmap).1) :
    r.url = te ∧ r.headers = mkHeaders hh ∧ r.allowRedirects = false ∧
      ∃ dc, r.body = pollBody cid dc (genVerifier rand) := by
  simp only [authenticate_device_flow_with_pkce] at hmem
  split at hmem
  · simp at hmem
  · split at hmem
    · simp at hmem
    · split at hmem
      · rename_i j uri dc huri hdc
        simp only [pollRequests_cons_device, pollRequests_cons_display] at hmem
        have := pollLoop_requests_mem te cid dc (genVerifier rand) (mkHeaders hh)
          ivl tokenResps fuel 0 r hmem
        subst this
        exact ⟨rfl, rfl, rfl, dc, rfl⟩
      · simp at hmem

/-! ### Header lemmas -/

/-- The `Content-Type` header (sent as `Content-type`; HTTP header names are
case-insensitive) is always the form encoding. -/
theorem mkHeaders_contentType (hh : Option String) :
    getHeaderCI "Content-Type" (mkHeaders hh) =
      some "application/x-www-form-urlencoded" := rfl

/-- A non-empty `host_header` is sent as the `Host` header. -/
theorem mkHeaders_host_provided (h : String) (hne : h ≠ "") :
    (mkHeaders (some h)).lookup "Host" = some h := by
  show (("Content-type", "application/x-www-form-urlencoded") ::
    (if h = "" then [] else [("Host", h)])).lookup "Host" = some h
  rw [if_neg hne]
  rfl

/-- Without a `host_header` no `Host` header is sent. -/
theorem mkHeaders_host_none : (mkHeaders none).lookup "Host" = none := rfl

/-- An empty `host_header` is falsy in Python, so no `Host` header is sent. -/
theorem mkHeaders_host_empty : (mkHeaders (some "")).lookup "Host" = none := rfl

/-! ### The claims -/

/-- C5: for every authentication attempt (i.e. for every choice oracle
standing for `secrets.choice`), the generated PKCE verifier is a string of
exactly 128 characters, each drawn from the 62-character alphanumeric
alphabet, sampled with replacement. -/
theorem claim5_verifier_shape (rand : Nat → Nat) :
    (genVerifier rand).length = 128 ∧
    pkceAlphabet.length = 62 ∧
    ∀ ch ∈ (genVerifier rand).data, ch ∈ pkceAlphabet.data :=
  ⟨genVerifier_length rand, rfl, genVerifier_chars rand⟩

/-- Witness for C5 at a concrete oracle. -/
theorem claim5_verifier_shape_witness :
    (genVerifier (fun _ => 0)).length = 128 ∧
    pkceAlphabet.length = 62 ∧
    ∀ ch ∈ (genVerifier (fun _ => 0)).data, ch ∈ pkceAlphabet.data :=
  claim5_verifier_shape (fun _ => 0)

/-- C8: when `scope` is absent it resolves to `client_id`, and the
device-code request body consists of exactly the fields `client_id`,
`code_challenge_method = "S256"`, `code_challenge`, and — when the resolved
scope is non-empty (Python truthiness of `if scope:`) — `scope`. -/
theorem claim8_device_body (fuel : Nat) (rand : Nat → Nat) (deviceResp : HttpResponse)
    (tokenResps : Nat → HttpResponse) (te de cid : String)
    (scope hh : Option String) (ivl : Nat) (rmap : List (String × String)) :
    (scope = none → resolveScope scope cid = cid) ∧
    deviceRequests (authenticate_device_flow_with_pkce fuel rand deviceResp tokenResps
        te de cid scope hh ivl rmap).1 =
      [⟨de,
        [("client_id", cid), ("code_challenge_method", "S256"),
         ("code_challenge", mkChallenge (genVerifier rand))] ++
          (if resolveScope scope cid = "" then []
           else [("scope", resolveScope scope cid)]),
        mkHeaders hh, false⟩] := by
  constructor
  · intro h; rw [h]; rfl
  · rw [flow_deviceRequests]; rfl

/-- Witness for C8 at concrete arguments with `scope = none`. -/
theorem claim8_device_body_witness :
    ((none : Option String) = none → resolveScope none "lakekeeper" = "lakekeeper") ∧
    deviceRequests (authenticate_device_flow_with_pkce 1 (fun _ => 0)
        ⟨400, "bad request", none⟩ (fun _ => ⟨400, "", none⟩)
        "http://te" "http://de" "lakekeeper" none none 5 []).1 =
      [⟨"http://de",
        [("client_id", "lakekeeper"), ("code_challenge_method", "S256"),
         ("code_challenge", mkChallenge (genVerifier (fun _ => 0)))] ++
          (if resolveScope none "lakekeeper" = "" then []
           else [("scope", resolveScope none "lakekeeper")]),
        mkHeaders none, false⟩] :=
  claim8_device_body 1 (fun _ => 0) ⟨400, "bad request", none⟩
    (fun _ => ⟨400, "", none⟩) "http://te" "http://de" "lakekeeper" none none 5 []

/-- C10: the omitted `endpoint_rewrite` argument defaults to the non-empty
mapping sending `lakekeeper-keycloak:8080` to `localhost:30080`, so a run
using the default displays the verification URL with every occurrence of
that substring replaced, even though the caller asked for no rewriting; the
final conjunct shows the replacement genuinely altering a URL. -/
theorem claim10_default_rewrite (fuel : Nat) (rand : Nat → Nat)
    (deviceResp : HttpResponse) (tokenResps : Nat → HttpResponse)
    (te de cid : String) (scope hh : Option String) (ivl : Nat)
    (j : List (String × String)) (uri dc : String)
    (hstat : raisesForStatus deviceResp.status = false)
    (hjson : deviceResp.json = some j)
    (huri : j.lookup "verification_uri_complete" = some uri)
    (hdc : j.lookup "device_code" = some dc) :
    endpointRewriteDefault = [("lakekeeper-keycloak:8080", "localhost:30080")] ∧
    displayedUrls (authenticate_device_flow_with_pkce fuel rand deviceResp tokenResps
        te de cid scope hh ivl endpointRewriteDefault).1 =
      [pyReplaceStr "lakekeeper-keycloak:8080" "localhost:30080" uri] ∧
    pyReplaceStr "lakekeeper-keycloak:8080" "localhost:30080"
        "http://lakekeeper-keycloak:8080/realms/iceberg/device" =
      "http://localhost:30080/realms/iceberg/device" := by
  refine ⟨rfl, ?_, by decide⟩
  rw [flow_ok fuel rand deviceResp tokenResps te de cid scope hh ivl
    endpointRewriteDefault j uri dc hstat hjson huri hdc]
  simp [pollLoop_displays, rewriteUri, endpointRewriteDefault]

/-- Witness for C10 at concrete arguments whose verification URL contains
the rewritten substring. -/
theorem claim10_default_rewrite_witness :
    (raisesForStatus (200 : Nat) = false ∧
      List.lookup "verification_uri_complete"
          [("verification_uri_complete", "http://lakekeeper-keycloak:8080/auth"),
           ("device_code", "dev-123")] =
        some "http://lakekeeper-keycloak:8080/auth" ∧
      List.lookup "device_code"
          [("verification_uri_complete", "http://lakekeeper-keycloak:8080/auth"),
           ("device_code", "dev-123")] = some "dev-123") ∧
    (endpointRewriteDefault = [("lakekeeper-keycloak:8080", "localhost:30080")] ∧
     displayedUrls (authenticate_device_flow_with_pkce 1 (fun _ => 0)
         ⟨200, "ok", some [("verification_uri_complete",
            "http://lakekeeper-keycloak:8080/auth"), ("device_code", "dev-123")]⟩
         (fun _ => ⟨400, "", none⟩) "http://te" "http://de" "cid" none none 5
         endpointRewriteDefault).1 =
       [pyReplaceStr "lakekeeper-keycloak:8080" "localhost:30080"
          "http://lakekeeper-keycloak:8080/auth"] ∧
     pyReplaceStr "lakekeeper-keycloak:8080" "localhost:30080"
         "http://lakekeeper-keycloak:8080/realms/iceberg/device" =
       "http://localhost:30080/realms/iceberg/device") :=
  ⟨⟨by decide, by decide, by decide⟩,
   claim10_default_rewrite 1 (fun _ => 0)
     ⟨200, "ok", some [("verification_uri_complete",
        "http://lakekeeper-keycloak:8080/auth"), ("device_code", "dev-123")]⟩
     (fun _ => ⟨400, "", none⟩) "http://te" "http://de" "cid" none none 5
     [("verification_uri_complete", "http://lakekeeper-keycloak:8080/auth"),
      ("device_code", "dev-123")]
     "http://lakekeeper-keycloak:8080/auth" "dev-123"
     (by decide) rfl (by decide) (by decide)⟩

/-- C4 (amended): a device response with a 4xx or 5xx status — the statuses
`raise_for_status` raises for — fails the run with the HTTP error carrying
that status and body, and no poll request is ever issued. -/
theorem claim4_device_error (fuel : Nat) (rand : Nat → Nat) (deviceResp : HttpResponse)
    (tokenResps : Nat → HttpResponse) (te de cid : String)
    (scope hh : Option String) (ivl : Nat) (rmap : List (String × String))
    (hstat : 400 ≤ deviceResp.status ∧ deviceResp.status < 600) :
    (authenticate_device_flow_with_pkce fuel rand deviceResp tokenResps
        te de cid scope hh ivl rmap).2 =
      Outcome.deviceAuthorizationError deviceResp.status deviceResp.text ∧
    pollRequests (authenticate_device_flow_with_pkce fuel rand deviceResp tokenResps
        te de cid scope hh ivl rmap).1 = [] := by
  have hb : raisesForStatus deviceResp.status = true := decide_eq_true hstat
  rw [flow_deviceFail fuel rand deviceResp tokenResps te de cid scope hh ivl rmap hb]
  simp

/-- Witness for C4 at a concrete HTTP 400 device response. -/
theorem claim4_device_error_witness :
    (400 ≤ (400 : Nat) ∧ (400 : Nat) < 600) ∧
    ((authenticate_device_flow_with_pkce 3 (fun _ => 0) ⟨400, "bad request", none⟩
        (fun _ => ⟨200, "", some [("access_token", "abc")]⟩)
        "http://te" "http://de" "cid" none none 5 []).2 =
      Outcome.deviceAuthorizationError 400 "bad request" ∧
    pollRequests (authenticate_device_flow_with_pkce 3 (fun _ => 0)
        ⟨400, "bad request", none⟩
        (fun _ => ⟨200, "", some [("access_token", "abc")]⟩)
        "http://te" "http://de" "cid" none none 5 []).1 = []) :=
  ⟨by decide,
   claim4_device_error 3 (fun _ => 0) ⟨400, "bad request", none⟩
     (fun _ => ⟨200, "", some [("access_token", "abc")]⟩)
     "http://te" "http://de" "cid" none none 5 [] (by decide)⟩

/-- C4 (counterexample to the claim as stated): a device response with the
non-2xx status 303 and a JSON body does not raise — `raise_for_status` only
raises for 4xx/5xx — so the flow proceeds to poll: here one poll request is
issued and the outcome is a token-side error, not `DeviceAuthorizationError`. -/
theorem claim4_counterexample :
    (authenticate_device_flow_with_pkce 1 (fun _ => 0)
        ⟨303, "see other", some [("verification_uri_complete", "http://u"),
          ("device_code", "dcode")]⟩
        (fun _ => ⟨400, "denied", some [("error", "access_denied")]⟩)
        "http://te" "http://de" "cid" none none 5 []).2 =
      Outcome.tokenExchangeError 400 "denied" ∧
    (pollRequests (authenticate_device_flow_with_pkce 1 (fun _ => 0)
        ⟨303, "see other", some [("verification_uri_complete", "http://u"),
          ("device_code", "dcode")]⟩
        (fun _ => ⟨400, "denied", some [("error", "access_denied")]⟩)
        "http://te" "http://de" "cid" none none 5 []).1).length = 1 := by
  constructor
  · rfl
  · rfl

/-- C3 (amended): during polling, a response whose status is in [400, 600)
and whose `error` field is not `authorization_pending` (including an
unparsable body, for which `errLookup` is `none`) fails the flow immediately
with the HTTP error carrying that status and body: exactly one poll request
and no sleep. -/
theorem claim3_fatal_poll_error (fuel : Nat) (rand : Nat → Nat)
    (deviceResp : HttpResponse) (tokenResps : Nat → HttpResponse)
    (te de cid : String) (scope hh : Option String) (ivl : Nat)
    (rmap : List (String × String)) (j : List (String × String)) (uri dc : String)
    (hstat : raisesForStatus deviceResp.status = false)
    (hjson : deviceResp.json = some j)
    (huri : j.lookup "verification_uri_complete" = some uri)
    (hdc : j.lookup "device_code" = some dc)
    (hstat2 : 400 ≤ (tokenResps 0).status ∧ (tokenResps 0).status < 600)
    (hnp : errLookup (tokenResps 0) ≠ some "authorization_pending")
    (hfuel : 1 ≤ fuel) :
    (authenticate_device_flow_with_pkce fuel rand deviceResp tokenResps
        te de cid scope hh ivl rmap).2 =
      Outcome.tokenExchangeError (tokenResps 0).status (tokenResps 0).text ∧
    (pollRequests (authenticate_device_flow_with_pkce fuel rand deviceResp tokenResps
        te de cid scope hh ivl rmap).1).length = 1 ∧
    sleepDurations (authenticate_device_flow_with_pkce fuel rand deviceResp tokenResps
        te de cid scope hh ivl rmap).1 = [] := by
  obtain ⟨k, rfl⟩ : ∃ k, fuel = k + 1 := ⟨fuel - 1, by omega⟩
  rw [flow_ok (k + 1) rand deviceResp tokenResps te de cid scope hh ivl rmap
    j uri dc hstat hjson huri hdc]
  have h200 : (tokenResps 0).status ≠ 200 := by omega
  have hraise : raisesForStatus (tokenResps 0).status = true := decide_eq_true hstat2
  rw [pollLoop_succ_fatal te cid dc (genVerifier rand) (mkHeaders hh) ivl
    tokenResps k 0 h200 hnp hraise]
  simp

/-- Witness for C3 at a concrete `access_denied` poll response. -/
theorem claim3_fatal_poll_error_witness :
    (raisesForStatus (200 : Nat) = false ∧
     (400 ≤ (403 : Nat) ∧ (403 : Nat) < 600) ∧
     errLookup ⟨403, "denied", some [("error", "access_denied")]⟩ ≠
       some "authorization_pending") ∧
    ((authenticate_device_flow_with_pkce 4 (fun _ => 0)
        ⟨200, "ok", some [("verification_uri_complete", "http://u"),
          ("device_code", "dcode")]⟩
        (fun _ => ⟨403, "denied", some [("error", "access_denied")]⟩)
        "http://te" "http://de" "cid" none none 5 []).2 =
      Outcome.tokenExchangeError 403 "denied" ∧
    (pollRequests (authenticate_device_flow_with_pkce 4 (fun _ => 0)
        ⟨200, "ok", some [("verification_uri_complete", "http://u"),
          ("device_code", "dcode")]⟩
        (fun _ => ⟨403, "denied", some [("error", "access_denied")]⟩)
        "http://te" "http://de" "cid" none none 5 []).1).length = 1 ∧
    sleepDurations (authenticate_device_flow_with_pkce 4 (fun _ => 0)
        ⟨200, "ok", some [("verification_uri_complete", "http://u"),
          ("device_code", "dcode")]⟩
        (fun _ => ⟨403, "denied", some [("error", "access_denied")]⟩)
        "http://te" "http://de" "cid" none none 5 []).1 = []) :=
  ⟨⟨by decide, by decide, by decide⟩,
   claim3_fatal_poll_error 4 (fun _ => 0)
     ⟨200, "ok", some [("verification_uri_complete", "http://u"),
       ("device_code", "dcode")]⟩
     (fun _ => ⟨403, "denied", some [("error", "access_denied")]⟩)
     "http://te" "http://de" "cid" none none 5 []
     [("verification_uri_complete", "http://u"), ("device_code", "dcode")]
     "http://u" "dcode" (by decide) rfl (by decide) (by decide)
     (by decide) (by decide) (by decide)⟩

/-- C3 (counterexample to the claim as stated): a non-200 poll response with
status 302 and an unparsable body does not fail — `raise_for_status` ignores
3xx — so the loop silently issues a further poll request with no error
raised and no sleep. -/
theorem claim3_counterexample :
    (pollRequests (authenticate_device_flow_with_pkce 2 (fun _ => 0)
        ⟨200, "ok", some [("verification_uri_complete", "http://u"),
          ("device_code", "dcode")]⟩
        (fun _ => ⟨302, "found", none⟩)
        "http://te" "http://de" "cid" none none 5 []).1).length = 2 ∧
    (authenticate_device_flow_with_pkce 2 (fun _ => 0)
        ⟨200, "ok", some [("verification_uri_complete", "http://u"),
          ("device_code", "dcode")]⟩
        (fun _ => ⟨302, "found", none⟩)
        "http://te" "http://de" "cid" none none 5 []).2 = Outcome.outOfFuel ∧
    sleepDurations (authenticate_device_flow_with_pkce 2 (fun _ => 0)
        ⟨200, "ok", some [("verification_uri_complete", "http://u"),
          ("device_code", "dcode")]⟩
        (fun _ => ⟨302, "found", none⟩)
        "http://te" "http://de" "cid" none none 5 []).1 = [] :=
  ⟨rfl, rfl, rfl⟩

/-- C2 (amended): an `authorization_pending` error sleeps `polling_interval`
seconds and polls again, and the stated three-response scenario sleeps
exactly twice and returns the 200 body; but among all responses,
the retry condition is exactly "non-200 and (`authorization_pending` or a
status outside [400, 600))" — a non-pending 3xx response is also retried
(without sleeping), so pending is only the sole retry condition among
responses with 4xx/5xx statuses. -/
theorem claim2_pending_retry (fuel : Nat) (rand : Nat → Nat)
    (deviceResp : HttpResponse) (tokenResps : Nat → HttpResponse)
    (te de cid : String) (scope hh : Option String) (ivl : Nat)
    (rmap : List (String × String)) (j body : List (String × String))
    (uri dc : String)
    (hstat : raisesForStatus deviceResp.status = false)
    (hjson : deviceResp.json = some j)
    (huri : j.lookup "verification_uri_complete" = some uri)
    (hdc : j.lookup "device_code" = some dc) :
    (pendingAt tokenResps 0 → pendingAt tokenResps 1 →
      (tokenResps 2).status = 200 → (tokenResps 2).json = some body →
      3 ≤ fuel →
      (authenticate_device_flow_with_pkce fuel rand deviceResp tokenResps
          te de cid scope hh ivl rmap).2 = Outcome.success body ∧
      (pollRequests (authenticate_device_flow_with_pkce fuel rand deviceResp tokenResps
          te de cid scope hh ivl rmap).1).length = 3 ∧
      sleepDurations (authenticate_device_flow_with_pkce fuel rand deviceResp tokenResps
          te de cid scope hh ivl rmap).1 = [ivl, ivl]) ∧
    (2 ≤ fuel →
      (2 ≤ (pollRequests (authenticate_device_flow_with_pkce fuel rand deviceResp
          tokenResps te de cid scope hh ivl rmap).1).length ↔
        retriable (tokenResps 0))) := by
  constructor
  · intro hp0 hp1 h200 hbody hfuel
    obtain ⟨k, rfl⟩ : ∃ k, fuel = k + 3 := ⟨fuel - 3, by omega⟩
    rw [flow_ok (k + 3) rand deviceResp tokenResps te de cid scope hh ivl rmap
      j uri dc hstat hjson huri hdc]
    rw [show k + 3 = (k + 2) + 1 by omega]
    rw [pollLoop_succ_pending te cid dc (genVerifier rand) (mkHeaders hh) ivl
      tokenResps (k + 2) 0 hp0]
    rw [show k + 2 = (k + 1) + 1 by omega]
    rw [pollLoop_succ_pending te cid dc (genVerifier rand) (mkHeaders hh) ivl
      tokenResps (k + 1) 1 hp1]
    rw [pollLoop_succ_200 te cid dc (genVerifier rand) (mkHeaders hh) ivl
      tokenResps k 2 body h200 hbody]
    simp
  · intro hfuel
    obtain ⟨k, rfl⟩ : ∃ k, fuel = k + 2 := ⟨fuel - 2, by omega⟩
    rw [flow_ok (k + 2) rand deviceResp tokenResps te de cid scope hh ivl rmap
      j uri dc hstat hjson huri hdc]
    simp only [pollRequests_cons_device, pollRequests_cons_display]
    exact pollLoop_retry_iff te cid dc (genVerifier rand) (mkHeaders hh) ivl
      tokenResps k 0

/-- Witness for C2: pending twice, then 200 with a token body. -/
theorem claim2_pending_retry_witness :
    (raisesForStatus (200 : Nat) = false ∧
     pendingAt (fun i => if i < 2
        then ⟨400, "pending", some [("error", "authorization_pending")]⟩
        else ⟨200, "token", some [("access_token", "abc")]⟩) 0 ∧
     pendingAt (fun i => if i < 2
        then ⟨400, "pending", some [("error", "authorization_pending")]⟩
        else ⟨200, "token", some [("access_token", "abc")]⟩) 1) ∧
    ((pendingAt (fun i => if i < 2
        then ⟨400, "pending", some [("error", "authorization_pending")]⟩
        else ⟨200, "token", some [("access_token", "abc")]⟩) 0 →
      pendingAt (fun i => if i < 2
        then ⟨400, "pending", some [("error", "authorization_pending")]⟩
        else ⟨200, "token", some [("access_token", "abc")]⟩) 1 →
      ((fun i => if i < 2
        then (⟨400, "pending", some [("error", "authorization_pending")]⟩ : HttpResponse)
        else ⟨200, "token", some [("access_token", "abc")]⟩) 2).status = 200 →
      ((fun i => if i < 2
        then (⟨400, "pending", some [("error", "authorization_pending")]⟩ : HttpResponse)
        else ⟨200, "token", some [("access_token", "abc")]⟩) 2).json =
        some [("access_token", "abc")] →
      3 ≤ 5 →
      (authenticate_device_flow_with_pkce 5 (fun _ => 0)
          ⟨200, "ok", some [("verification_uri_complete", "http://u"),
            ("device_code", "dcode")]⟩
          (fun i => if i < 2
            then ⟨400, "pending", some [("error", "authorization_pending")]⟩
            else ⟨200, "token", some [("access_token", "abc")]⟩)
          "http://te" "http://de" "cid" none none 7 []).2 =
        Outcome.success [("access_token", "abc")] ∧
      (pollRequests (authenticate_device_flow_with_pkce 5 (fun _ => 0)
          ⟨200, "ok", some [("verification_uri_complete", "http://u"),
            ("device_code", "dcode")]⟩
          (fun i => if i < 2
            then ⟨400, "pending", some [("error", "authorization_pending")]⟩
            else ⟨200, "token", some [("access_token", "abc")]⟩)
          "http://te" "http://de" "cid" none none 7 []).1).length = 3 ∧
      sleepDurations (authenticate_device_flow_with_pkce 5 (fun _ => 0)
          ⟨200, "ok", some [("verification_uri_complete", "http://u"),
            ("device_code", "dcode")]⟩
          (fun i => if i < 2
            then ⟨400, "pending", some [("error", "authorization_pending")]⟩
            else ⟨200, "token", some [("access_token", "abc")]⟩)
          "http://te" "http://de" "cid" none none 7 []).1 = [7, 7]) ∧
    (2 ≤ 5 →
      (2 ≤ (pollRequests (authenticate_device_flow_with_pkce 5 (fun _ => 0)
          ⟨200, "ok", some [("verification_uri_complete", "http://u"),
            ("device_code", "dcode")]⟩
          (fun i => if i < 2
            then ⟨400, "pending", some [("error", "authorization_pending")]⟩
            else ⟨200, "token", some [("access_token", "abc")]⟩)
          "http://te" "http://de" "cid" none none 7 []).1).length ↔
        retriable ((fun i => if i < 2
          then (⟨400, "pending", some [("error", "authorization_pending")]⟩ : HttpResponse)
          else ⟨200, "token", some [("access_token", "abc")]⟩) 0)))) :=
  ⟨⟨by decide, ⟨by decide, by decide⟩, ⟨by decide, by decide⟩⟩,
   claim2_pending_retry 5 (fun _ => 0)
     ⟨200, "ok", some [("verification_uri_complete", "http://u"),
       ("device_code", "dcode")]⟩
     (fun i => if i < 2
       then ⟨400, "pending", some [("error", "authorization_pending")]⟩
       else ⟨200, "token", some [("access_token", "abc")]⟩)
     "http://te" "http://de" "cid" none none 7 []
     [("verification_uri_complete", "http://u"), ("device_code", "dcode")]
     [("access_token", "abc")] "http://u" "dcode"
     (by decide) rfl (by decide) (by decide)⟩

/-- C2 (counterexample to the claim as stated): `authorization_pending` is
not the only condition under which polling is retried — a 302 response whose
error is `access_denied` is also followed by a second poll request, with no
sleep. -/
theorem claim2_counterexample :
    errLookup ⟨302, "found", some [("error", "access_denied")]⟩ ≠
      some "authorization_pending" ∧
    (pollRequests (authenticate_device_flow_with_pkce 2 (fun _ => 0)
        ⟨200, "ok", some [("verification_uri_complete", "http://u"),
          ("device_code", "dcode")]⟩
        (fun _ => ⟨302, "found", some [("error", "access_denied")]⟩)
        "http://te" "http://de" "cid" none none 5 []).1).length = 2 ∧
    sleepDurations (authenticate_device_flow_with_pkce 2 (fun _ => 0)
        ⟨200, "ok", some [("verification_uri_complete", "http://u"),
          ("device_code", "dcode")]⟩
        (fun _ => ⟨302, "found", some [("error", "access_denied")]⟩)
        "http://te" "http://de" "cid" none none 5 []).1 = [] :=
  ⟨by decide, rfl, rfl⟩

/-- C6: the endpoint rewrites affect only the displayed verification URL —
the displayed URL is exactly the rewrite of the server's URL, every poll
request submits the server's original `device_code` unchanged, and two runs
differing only in the rewrite map have identical traces apart from the
display emission, and identical outcomes. -/
theorem claim6_rewrite_frame (fuel : Nat) (rand : Nat → Nat)
    (deviceResp : HttpResponse) (tokenResps : Nat → HttpResponse)
    (te de cid : String) (scope hh : Option String) (ivl : Nat)
    (rmap rmap2 : List (String × String)) (j : List (String × String))
    (uri dc : String)
    (hstat : raisesForStatus deviceResp.status = false)
    (hjson : deviceResp.json = some j)
    (huri : j.lookup "verification_uri_complete" = some uri)
    (hdc : j.lookup "device_code" = some dc) :
    (∀ pr ∈ pollRequests (authenticate_device_flow_with_pkce fuel rand deviceResp
        tokenResps te de cid scope hh ivl rmap).1,
      pr.body.lookup "device_code" = some dc) ∧
    displayedUrls (authenticate_device_flow_with_pkce fuel rand deviceResp
        tokenResps te de cid scope hh ivl rmap).1 = [rewriteUri rmap uri] ∧
    nonDisplayEvents (authenticate_device_flow_with_pkce fuel rand deviceResp
        tokenResps te de cid scope hh ivl rmap).1 =
      nonDisplayEvents (authenticate_device_flow_with_pkce fuel rand deviceResp
        tokenResps te de cid scope hh ivl rmap2).1 ∧
    (authenticate_device_flow_with_pkce fuel rand deviceResp
        tokenResps te de cid scope hh ivl rmap).2 =
      (authenticate_device_flow_with_pkce fuel rand deviceResp
        tokenResps te de cid scope hh ivl rmap2).2 := by
  rw [flow_ok fuel rand deviceResp tokenResps te de cid scope hh ivl rmap
    j uri dc hstat hjson huri hdc,
    flow_ok fuel rand deviceResp tokenResps te de cid scope hh ivl rmap2
    j uri dc hstat hjson huri hdc]
  refine ⟨?_, ?_, rfl, rfl⟩
  · intro pr hpr
    simp only [pollRequests_cons_device, pollRequests_cons_display] at hpr
    have hpr2 := pollLoop_requests_mem te cid dc (genVerifier rand) (mkHeaders hh)
      ivl tokenResps fuel 0 pr hpr
    subst hpr2
    rfl
  · simp [pollLoop_displays]

/-- Witness for C6 at concrete arguments matching the spec's example
(`internal-host:8080` rewritten to `localhost:9000`). -/
theorem claim6_rewrite_frame_witness :
    (raisesForStatus (200 : Nat) = false ∧
     List.lookup "verification_uri_complete"
        [("verification_uri_complete", "http://internal-host:8080/dev"),
         ("device_code", "dcode")] = some "http://internal-host:8080/dev" ∧
     List.lookup "device_code"
        [("verification_uri_complete", "http://internal-host:8080/dev"),
         ("device_code", "dcode")] = some "dcode") ∧
    ((∀ pr ∈ pollRequests (authenticate_device_flow_with_pkce 1 (fun _ => 0)
        ⟨200, "ok", some [("verification_uri_complete", "http://internal-host:8080/dev"),
          ("device_code", "dcode")]⟩
        (fun _ => ⟨400, "pending", some [("error", "authorization_pending")]⟩)
        "http://te" "http://de" "cid" none none 5
        [("internal-host:8080", "localhost:9000")]).1,
      pr.body.lookup "device_code" = some "dcode") ∧
    displayedUrls (authenticate_device_flow_with_pkce 1 (fun _ => 0)
        ⟨200, "ok", some [("verification_uri_complete", "http://internal-host:8080/dev"),
          ("device_code", "dcode")]⟩
        (fun _ => ⟨400, "pending", some [("error", "authorization_pending")]⟩)
        "http://te" "http://de" "cid" none none 5
        [("internal-host:8080", "localhost:9000")]).1 =
      [rewriteUri [("internal-host:8080", "localhost:9000")]
        "http://internal-host:8080/dev"] ∧
    nonDisplayEvents (authenticate_device_flow_with_pkce 1 (fun _ => 0)
        ⟨200, "ok", some [("verification_uri_complete", "http://internal-host:8080/dev"),
          ("device_code", "dcode")]⟩
        (fun _ => ⟨400, "pending", some [("error", "authorization_pending")]⟩)
        "http://te" "http://de" "cid" none none 5
        [("internal-host:8080", "localhost:9000")]).1 =
      nonDisplayEvents (authenticate_device_flow_with_pkce 1 (fun _ => 0)
        ⟨200, "ok", some [("verification_uri_complete", "http://internal-host:8080/dev"),
          ("device_code", "dcode")]⟩
        (fun _ => ⟨400, "pending", some [("error", "authorization_pending")]⟩)
        "http://te" "http://de" "cid" none none 5 []).1 ∧
    (authenticate_device_flow_with_pkce 1 (fun _ => 0)
        ⟨200, "ok", some [("verification_uri_complete", "http://internal-host:8080/dev"),
          ("device_code", "dcode")]⟩
        (fun _ => ⟨400, "pending", some [("error", "authorization_pending")]⟩)
        "http://te" "http://de" "cid" none none 5
        [("internal-host:8080", "localhost:9000")]).2 =
      (authenticate_device_flow_with_pkce 1 (fun _ => 0)
        ⟨200, "ok", some [("verification_uri_complete", "http://internal-host:8080/dev"),
          ("device_code", "dcode")]⟩
        (fun _ => ⟨400, "pending", some [("error", "authorization_pending")]⟩)
        "http://te" "http://de" "cid" none none 5 []).2) :=
  ⟨⟨by decide, by decide, by decide⟩,
   claim6_rewrite_frame 1 (fun _ => 0)
     ⟨200, "ok", some [("verification_uri_complete", "http://internal-host:8080/dev"),
       ("device_code", "dcode")]⟩
     (fun _ => ⟨400, "pending", some [("error", "authorization_pending")]⟩)
     "http://te" "http://de" "cid" none none 5
     [("internal-host:8080", "localhost:9000")] []
     [("verification_uri_complete", "http://internal-host:8080/dev"),
      ("device_code", "dcode")]
     "http://internal-host:8080/dev" "dcode"
     (by decide) rfl (by decide) (by decide)⟩

/-- C7: the polling loop enforces no maximum poll count and no timeout —
for every `n`, if the first `n` token responses are all non-200
`authorization_pending` bodies, a run observed for `n` iterations has
neither returned nor raised and has issued exactly `n` polls, and a run
observed for `n + 1` iterations issues an `(n+1)`-st poll request. -/
theorem claim7_unbounded_polling (rand : Nat → Nat) (deviceResp : HttpResponse)
    (tokenResps : Nat → HttpResponse) (te de cid : String)
    (scope hh : Option String) (ivl : Nat) (rmap : List (String × String))
    (j : List (String × String)) (uri dc : String)
    (hstat : raisesForStatus deviceResp.status = false)
    (hjson : deviceResp.json = some j)
    (huri : j.lookup "verification_uri_complete" = some uri)
    (hdc : j.lookup "device_code" = some dc)
    (n : Nat) (hpend : ∀ k, k < n → pendingAt tokenResps k) :
    (authenticate_device_flow_with_pkce n rand deviceResp tokenResps
        te de cid scope hh ivl rmap).2 = Outcome.outOfFuel ∧
    (pollRequests (authenticate_device_flow_with_pkce n rand deviceResp tokenResps
        te de cid scope hh ivl rmap).1).length = n ∧
    (pollRequests (authenticate_device_flow_with_pkce (n + 1) rand deviceResp
        tokenResps te de cid scope hh ivl rmap).1).length = n + 1 := by
  have hp0 : ∀ k, k < n → pendingAt tokenResps (0 + k) := by
    intro k hk; rw [Nat.zero_add]; exact hpend k hk
  rw [flow_ok n rand deviceResp tokenResps te de cid scope hh ivl rmap
    j uri dc hstat hjson huri hdc,
    flow_ok (n + 1) rand deviceResp tokenResps te de cid scope hh ivl rmap
    j uri dc hstat hjson huri hdc]
  have h1 := pollLoop_pending_run te cid dc (genVerifier rand) (mkHeaders hh)
    ivl tokenResps n 0 hp0
  have h2 := pollLoop_pending_extra te cid dc (genVerifier rand) (mkHeaders hh)
    ivl tokenResps n 0 hp0
  refine ⟨h1.1, ?_, ?_⟩
  · simp only [pollRequests_cons_device, pollRequests_cons_display]
    exact h1.2.1
  · simp only [pollRequests_cons_device, pollRequests_cons_display]
    exact h2

/-- Witness for C7 with two pending responses. -/
theorem claim7_unbounded_polling_witness :
    (raisesForStatus (200 : Nat) = false ∧
     (∀ k, k < 2 → pendingAt
        (fun _ => ⟨400, "pending", some [("error", "authorization_pending")]⟩) k)) ∧
    ((authenticate_device_flow_with_pkce 2 (fun _ => 0)
        ⟨200, "ok", some [("verification_uri_complete", "http://u"),
          ("device_code", "dcode")]⟩
        (fun _ => ⟨400, "pending", some [("error", "authorization_pending")]⟩)
        "http://te" "http://de" "cid" none none 5 []).2 = Outcome.outOfFuel ∧
    (pollRequests (authenticate_device_flow_with_pkce 2 (fun _ => 0)
        ⟨200, "ok", some [("verification_uri_complete", "http://u"),
          ("device_code", "dcode")]⟩
        (fun _ => ⟨400, "pending", some [("error", "authorization_pending")]⟩)
        "http://te" "http://de" "cid" none none 5 []).1).length = 2 ∧
    (pollRequests (authenticate_device_flow_with_pkce (2 + 1) (fun _ => 0)
        ⟨200, "ok", some [("verification_uri_complete", "http://u"),
          ("device_code", "dcode")]⟩
        (fun _ => ⟨400, "pending", some [("error", "authorization_pending")]⟩)
        "http://te" "http://de" "cid" none none 5 []).1).length = 2 + 1) :=
  ⟨⟨by decide, fun k hk =>
     (⟨by decide, by decide⟩ : (400 : Nat) ≠ 200 ∧
       errLookup ⟨400, "pending", some [("error", "authorization_pending")]⟩ =
         some "authorization_pending")⟩,
   claim7_unbounded_polling (fun _ => 0)
     ⟨200, "ok", some [("verification_uri_complete", "http://u"),
       ("device_code", "dcode")]⟩
     (fun _ => ⟨400, "pending", some [("error", "authorization_pending")]⟩)
     "http://te" "http://de" "cid" none none 5 []
     [("verification_uri_complete", "http://u"), ("device_code", "dcode")]
     "http://u" "dcode" (by decide) rfl (by decide) (by decide) 2
     (fun k hk =>
       (⟨by decide, by decide⟩ : (400 : Nat) ≠ 200 ∧
         errLookup ⟨400, "pending", some [("error", "authorization_pending")]⟩ =
           some "authorization_pending"))⟩

/-- C9 (amended): every outgoing request — the device-code request and every
poll request — carries the form-encoding content type (sent as
`Content-type`; HTTP header names are case-insensitive), carries a `Host`
header exactly when `host_header` is provided and non-empty (Python
truthiness: an empty string is provided but falsy, so no `Host` header is
sent), and is issued without following redirects. -/
theorem claim9_headers (fuel : Nat) (rand : Nat → Nat) (deviceResp : HttpResponse)
    (tokenResps : Nat → HttpResponse) (te de cid : String)
    (scope hh : Option String) (ivl : Nat) (rmap : List (String × String))
    (r : Request)
    (hmem : r ∈ deviceRequests (authenticate_device_flow_with_pkce fuel rand deviceResp
        tokenResps te de cid scope hh ivl rmap).1 ∨
      r ∈ pollRequests (authenticate_device_flow_with_pkce fuel rand deviceResp
        tokenResps te de cid scope hh ivl rmap).1) :
    getHeaderCI "Content-Type" r.headers = some "application/x-www-form-urlencoded" ∧
    (∀ h, hh = some h → h ≠ "" → r.headers.lookup "Host" = some h) ∧
    ((hh = none ∨ hh = some "") → r.headers.lookup "Host" = none) ∧
    r.allowRedirects = false := by
  have hr : r.headers = mkHeaders hh ∧ r.allowRedirects = false := by
    rcases hmem with hd | hp
    · rw [flow_deviceRequests] at hd
      simp only [List.mem_singleton] at hd
      subst hd
      exact ⟨rfl, rfl⟩
    · obtain ⟨_, h2, h3, _⟩ := flow_pollRequests_mem fuel rand deviceResp tokenResps
        te de cid scope hh ivl rmap r hp
      exact ⟨h2, h3⟩
  rw [hr.1]
  refine ⟨mkHeaders_contentType hh, ?_, ?_, hr.2⟩
  · intro h he hne
    subst he
    exact mkHeaders_host_provided h hne
  · intro hcase
    rcases hcase with rfl | rfl
    · exact mkHeaders_host_none
    · exact mkHeaders_host_empty

/-- Witness for C9 at a concrete run with a non-empty `host_header`. -/
theorem claim9_headers_witness :
    (deviceRequestOf (fun _ => 0) "http://de" "cid" none (some "proxy.example") ∈
        deviceRequests (authenticate_device_flow_with_pkce 1 (fun _ => 0)
          ⟨400, "bad", none⟩ (fun _ => ⟨400, "", none⟩)
          "http://te" "http://de" "cid" none (some "proxy.example") 5 []).1 ∨
      deviceRequestOf (fun _ => 0) "http://de" "cid" none (some "proxy.example") ∈
        pollRequests (authenticate_device_flow_with_pkce 1 (fun _ => 0)
          ⟨400, "bad", none⟩ (fun _ => ⟨400, "", none⟩)
          "http://te" "http://de" "cid" none (some "proxy.example") 5 []).1) ∧
    (getHeaderCI "Content-Type"
        (deviceRequestOf (fun _ => 0) "http://de" "cid" none
          (some "proxy.example")).headers =
      some "application/x-www-form-urlencoded" ∧
    (∀ h, (some "proxy.example" : Option String) = some h → h ≠ "" →
      (deviceRequestOf (fun _ => 0) "http://de" "cid" none
        (some "proxy.example")).headers.lookup "Host" = some h) ∧
    (((some "proxy.example" : Option String) = none ∨
        (some "proxy.example" : Option String) = some "") →
      (deviceRequestOf (fun _ => 0) "http://de" "cid" none
        (some "proxy.example")).headers.lookup "Host" = none) ∧
    (deviceRequestOf (fun _ => 0) "http://de" "cid" none
      (some "proxy.example")).allowRedirects = false) :=
  ⟨Or.inl (by
     rw [flow_deviceRequests]
     exact List.mem_singleton.mpr rfl),
   claim9_headers 1 (fun _ => 0) ⟨400, "bad", none⟩ (fun _ => ⟨400, "", none⟩)
     "http://te" "http://de" "cid" none (some "proxy.example") 5 []
     (deviceRequestOf (fun _ => 0) "http://de" "cid" none (some "proxy.example"))
     (Or.inl (by
       rw [flow_deviceRequests]
       exact List.mem_singleton.mpr rfl))⟩

/-- C9 (counterexample to the claim as stated): with `host_header` provided
as the empty string, Python's `if host_header:` is falsy, so the device-code
request carries no `Host` header even though `host_header` was provided —
refuting the "if and only if provided" direction. -/
theorem claim9_counterexample :
    (deviceRequests (authenticate_device_flow_with_pkce 1 (fun _ => 0)
        ⟨400, "bad", none⟩ (fun _ => ⟨400, "", none⟩)
        "http://te" "http://de" "cid" none (some "") 5 []).1).map
      (fun r => r.headers.lookup "Host") = [none] := rfl

/-- C1: in every run, each poll request sends the generated verifier under
`code_verifier`, the device-code request sends under `code_challenge`
exactly the URL-safe unpadded base64 of the SHA-256 of the UTF-8 bytes of
that verifier, the device-code request has no `code_verifier` field, and —
provided the caller-chosen `client_id` and scope do not coincide with the
fresh random verifier — the verifier value appears nowhere in the
device-code request body. -/
theorem claim1_pkce_roundtrip (fuel : Nat) (rand : Nat → Nat)
    (deviceResp : HttpResponse) (tokenResps : Nat → HttpResponse)
    (te de cid : String) (scope hh : Option String) (ivl : Nat)
    (rmap : List (String × String))
    (hcid : cid ≠ genVerifier rand)
    (hscope : resolveScope scope cid ≠ genVerifier rand) :
    ∀ dr ∈ deviceRequests (authenticate_device_flow_with_pkce fuel rand deviceResp
      tokenResps te de cid scope hh ivl rmap).1,
    ∀ pr ∈ pollRequests (authenticate_device_flow_with_pkce fuel rand deviceResp
      tokenResps te de cid scope hh ivl rmap).1,
      ∃ v, pr.body.lookup "code_verifier" = some v ∧
        dr.body.lookup "code_challenge" =
          some (String.mk (b64urlEncodeNoPad (sha256 (strBytes v)))) ∧
        dr.body.lookup "code_verifier" = none ∧
        v ∉ dr.body.map Prod.snd := by
  intro dr hdr pr hpr
  rw [flow_deviceRequests] at hdr
  simp only [List.mem_singleton] at hdr
  subst hdr
  obtain ⟨_, _, _, dc, hbody⟩ := flow_pollRequests_mem fuel rand deviceResp tokenResps
    te de cid scope hh ivl rmap pr hpr
  refine ⟨genVerifier rand, ?_, ?_, ?_, ?_⟩
  · rw [hbody]; rfl
  · rfl
  · show List.lookup "code_verifier"
      (deviceData cid (mkChallenge (genVerifier rand)) (resolveScope scope cid)) = none
    unfold deviceData
    split <;> rfl
  · intro hmem
    have hch : (mkChallenge (genVerifier rand)).length = 43 := mkChallenge_length _
    have hv : (genVerifier rand).length = 128 := genVerifier_length rand
    simp only [deviceRequestOf, deviceData] at hmem
    rcases Decidable.em (resolveScope scope cid = "") with hs | hs
    · rw [if_pos hs] at hmem
      simp at hmem
      rcases hmem with h | h | h
      · exact hcid h.symm
      · have hl := congrArg String.length h
        rw [hv] at hl
        exact absurd hl (by decide)
      · have hl := congrArg String.length h
        rw [hv, hch] at hl
        exact absurd hl (by decide)
    · rw [if_neg hs] at hmem
      simp at hmem
      rcases hmem with h | h | h | h
      · exact hcid h.symm
      · have hl := congrArg String.length h
        rw [hv] at hl
        exact absurd hl (by decide)
      · have hl := congrArg String.length h
        rw [hv, hch] at hl
        exact absurd hl (by decide)
      · exact hscope h.symm

/-- Witness for C1 at a concrete run: the client id and resolved scope
differ from the generated verifier. -/
theorem claim1_pkce_roundtrip_witness :
    ("cid" ≠ genVerifier (fun _ => 0) ∧
     resolveScope none "cid" ≠ genVerifier (fun _ => 0)) ∧
    (∀ dr ∈ deviceRequests (authenticate_device_flow_with_pkce 1 (fun _ => 0)
        ⟨200, "ok", some [("verification_uri_complete", "http://u"),
          ("device_code", "dcode")]⟩
        (fun _ => ⟨400, "pending", some [("error", "authorization_pending")]⟩)
        "http://te" "http://de" "cid" none none 5 []).1,
     ∀ pr ∈ pollRequests (authenticate_device_flow_with_pkce 1 (fun _ => 0)
        ⟨200, "ok", some [("verification_uri_complete", "http://u"),
          ("device_code", "dcode")]⟩
        (fun _ => ⟨400, "pending", some [("error", "authorization_pending")]⟩)
        "http://te" "http://de" "cid" none none 5 []).1,
       ∃ v, pr.body.lookup "code_verifier" = some v ∧
         dr.body.lookup "code_challenge" =
           some (String.mk (b64urlEncodeNoPad (sha256 (strBytes v)))) ∧
         dr.body.lookup "code_verifier" = none ∧
         v ∉ dr.body.map Prod.snd) :=
  ⟨⟨by decide, by decide⟩,
   claim1_pkce_roundtrip 1 (fun _ => 0)
     ⟨200, "ok", some [("verification_uri_complete", "http://u"),
       ("device_code", "dcode")]⟩
     (fun _ => ⟨400, "pending", some [("error", "authorization_pending")]⟩)
     "http://te" "http://de" "cid" none none 5 [] (by decide) (by decide)⟩
